import Mathlib

/-!
Shallow embedding of `git_setup_wizard.py` for verifying the spec's claims.

File contents are modelled as `List Char` (Python `str`). A file state is
`Option (List Char)`: `none` means the file does not exist, `some c` means it
exists with content `c`. Each append-if-absent site in the source is embedded
as a function from the pre-state to the post-content.
-/

namespace GitSetupWizard

/-- Python whitespace characters stripped by `str.strip()` (ASCII range):
space, tab, newline, carriage return, vertical tab, form feed. -/
def isPyWs (c : Char) : Bool :=
  c = ' ' || c = '\t' || c = '\n' || c = '\r' || c = Char.ofNat 11 || c = Char.ofNat 12

/-- Python `str.lstrip()`. -/
def pyLstrip (l : List Char) : List Char := l.dropWhile isPyWs

/-- Python `str.strip()`: drop whitespace from both ends. -/
def pyStrip (l : List Char) : List Char :=
  ((l.dropWhile isPyWs).reverse.dropWhile isPyWs).reverse

/-- Python `str.lower()` restricted to ASCII, which is all the wizard feeds it:
map each character in `A`–`Z` to its lowercase form. -/
def pyLowerChar (c : Char) : Char :=
  if 'A' ≤ c ∧ c ≤ 'Z' then Char.ofNat (c.toNat + 32) else c

/-- Lowercasing of a whole content string, `content.lower()`. -/
def pyLower (l : List Char) : List Char := l.map pyLowerChar

/- ── The three ensure sites (setup_ssh, setup_gpg, GPG_TTY in the rc file) ── -/

/-- The `github_block` string literal from `setup_ssh` (lines 374–379). -/
def githubBlock : List Char :=
  "\nHost github.com\n  AddKeysToAgent yes\n  UseKeychain yes\n  IdentityFile ~/.ssh/id_ed25519\n".data

/-- The `~/.ssh/config` mutation in `setup_ssh` (lines 381–394): if the file
exists and `"github.com"` occurs in the lowercased content, leave it alone;
if it exists without the marker, append `github_block`; if it does not exist,
write `github_block.lstrip()`. -/
def sshConfigEnsure : Option (List Char) → List Char
  | some content =>
      if "github.com".data <:+: pyLower content then content
      else content ++ githubBlock
  | none => pyLstrip githubBlock

/-- The `pinentry_line` f-string from `setup_gpg` (line 441), parameterised by
the pinentry path. -/
def pinentryLine (pin : List Char) : List Char := "pinentry-program ".data ++ pin

/-- The block appended to an existing `gpg-agent.conf`:
`f"\n{pinentry_line}\n"` (line 446). -/
def gpgAppendBlock (pin : List Char) : List Char := '\n' :: (pinentryLine pin ++ ['\n'])

/-- The content written to a fresh `gpg-agent.conf`: `pinentry_line + "\n"`
(line 451). -/
def gpgCreateContent (pin : List Char) : List Char := pinentryLine pin ++ ['\n']

/-- The `gpg-agent.conf` mutation in `setup_gpg` (lines 442–452): marker
`"pinentry-program"` is checked case-sensitively against the raw content. -/
def gpgAgentEnsure (pin : List Char) : Option (List Char) → List Char
  | some content =>
      if "pinentry-program".data <:+: content then content
      else content ++ gpgAppendBlock pin
  | none => gpgCreateContent pin

/-- The block appended to an existing shell rc file (line 554). -/
def gpgTtyBlock : List Char := "\n# GPG commit signing\nexport GPG_TTY=$(tty)\n".data

/-- The content written to a fresh shell rc file (line 559). -/
def gpgTtyCreate : List Char := "# GPG commit signing\nexport GPG_TTY=$(tty)\n".data

/-- The shell-rc mutation in `setup_gpg` (lines 549–560): marker `"GPG_TTY"`
is checked case-sensitively against the raw content. -/
def rcGpgTtyEnsure : Option (List Char) → List Char
  | some content =>
      if "GPG_TTY".data <:+: content then content
      else content ++ gpgTtyBlock
  | none => gpgTtyCreate

/- ── The key-id extractor (setup_gpg, lines 463–469 and 503–509) ── -/

/-- A character matched by the regex class `[A-F0-9]`. -/
def isHexChar (c : Char) : Bool :=
  ('A' ≤ c && c ≤ 'F') || ('0' ≤ c && c ≤ '9')

/-- `re.search(r'/([A-F0-9]{8,})', line)`: scan left to right for the first
position holding `/` followed by a greedy run of at least eight characters
from `[A-F0-9]`; return that run (capture group 1), or `none`. -/
def reSearch : List Char → Option (List Char)
  | [] => none
  | c :: rest =>
      if c = '/' then
        let run := rest.takeWhile isHexChar
        if 8 ≤ run.length then some run else reSearch rest
      else reSearch rest

/-- Python `out.split("\n")`: split on every newline, keeping empty pieces
(so the empty string splits to `[""]`). -/
def splitLines : List Char → List (List Char)
  | [] => [[]]
  | c :: rest =>
      let r := splitLines rest
      if c = '\n' then [] :: r
      else
        match r with
        | [] => [[c]]
        | h :: t => (c :: h) :: t

/-- The literal record prefix `"sec"`. -/
def secLit : List Char := "sec".data

/-- The `for line in out.split("\n")` loop body: strip the line; if it starts
with `"sec"`, search it with `reSearch`; on a match, stop with the captured
run, otherwise keep scanning later lines. -/
def scanLines : List (List Char) → Option (List Char)
  | [] => none
  | l :: ls =>
      let t := pyStrip l
      if secLit.isPrefixOf t then
        match reSearch t with
        | some r => some r
        | none => scanLines ls
      else scanLines ls

/-- The whole extractor applied to the tool output (the outer guard
`if existing and "sec" in existing` in the source can only skip outputs on
which the loop would return `None` anyway, so the loop is the extractor). -/
def extractKeyId (out : List Char) : Option (List Char) :=
  scanLines (splitLines out)

/- ── The shell command gateway (sh, sh_ok, cmd_exists; lines 87–105) ── -/

/-- What `subprocess.run(cmd, shell=True, capture_output=True, text=True)`
hands back on normal return: a `CompletedProcess` with return code, stdout,
stderr. -/
structure ExecResult where
  returncode : Int
  stdout : List Char
  stderr : List Char
deriving DecidableEq

/-- A Python exception value (only its message matters to the embedding). -/
structure PyExn where
  msg : List Char
deriving DecidableEq

/-- The operating system as an oracle: each command string either completes
with an `ExecResult` or makes `subprocess.run` raise (the situation `sh`'s
`try/except` exists for). -/
def OSModel : Type := List Char → Except PyExn ExecResult

/-- `sh(cmd)` as observed by its caller: the `try` block computes
`r.stdout.strip()`; the bare `except Exception` turns any raise into a normal
return of `""`. The result is always `Except.ok`. -/
def shCall (os : OSModel) (cmd : List Char) : Except PyExn (List Char) :=
  match os cmd with
  | .ok r => .ok (pyStrip r.stdout)
  | .error _ => .ok []

/-- `sh_ok(cmd)` as observed by its caller: `returncode == 0`, with no
exception handler, so a raise from `subprocess.run` propagates as
`Except.error`. -/
def shOkCall (os : OSModel) (cmd : List Char) : Except PyExn Bool :=
  match os cmd with
  | .ok r => .ok (decide (r.returncode = 0))
  | .error e => .error e

/-- `cmd_exists(name)`: `sh_ok(f"which {name}")`. -/
def cmdExistsCall (os : OSModel) (name : List Char) : Except PyExn Bool :=
  shOkCall os ("which ".data ++ name)

/- ── The wizard flow controller (welcome, preflight, main) ── -/

/-- Outcome of running a Python block that normally returns an `α`: normal
return, `sys.exit(code)` (a `SystemExit`, which `except Exception` does not
catch), `KeyboardInterrupt`, or an ordinary `Exception`. -/
inductive PyRun (α : Type) where
  | ok (a : α)
  | systemExit (code : Nat)
  | keyboardInterrupt
  | error (msg : List Char)
deriving DecidableEq

/-- Sequencing of Python blocks: any non-normal outcome propagates. -/
def pyBind {α β : Type} : PyRun α → (α → PyRun β) → PyRun β
  | .ok a, f => f a
  | .systemExit c, _ => .systemExit c
  | .keyboardInterrupt, _ => .keyboardInterrupt
  | .error m, _ => .error m

/-- `welcome()` (lines 184–204): if the user declines the `Ready?` prompt,
`sys.exit(0)`; otherwise fall through. -/
def welcomeRun (ready : Bool) : PyRun Unit :=
  if ready then .ok () else .systemExit 0

/-- `preflight()` (lines 210–289) up to the two hard preconditions: if
`platform.system() != "Darwin"`, `sys.exit(1)`; else if git is missing,
`sys.exit(1)`; else the rest of the phase runs (Homebrew/GnuPG handling),
abstracted here as `rest`, and returns the `gpg_available` flag. -/
def preflightRun (sysName : List Char) (gitOk : Bool) (rest : PyRun Bool) : PyRun Bool :=
  if sysName = "Darwin".data then
    (if gitOk then rest else .systemExit 1)
  else .systemExit 1

/-- The body of `main()`'s `try` block: `welcome()`, then `preflight()`, then
the remaining phases (collect_info through the rc sourcing), abstracted as
`afterRest` over the `gpg_available` flag. -/
def mainBody (ready : Bool) (sysName : List Char) (gitOk : Bool)
    (rest : PyRun Bool) (afterRest : Bool → PyRun Unit) : PyRun Unit :=
  pyBind (welcomeRun ready) fun _ =>
    pyBind (preflightRun sysName gitOk rest) afterRest

/-- How the process ends: with an exit status, by re-raising an exception
(after printing a message), or by returning normally from `main()` (the
process then exits 0). -/
inductive ExitBehavior where
  | exitCode (c : Nat)
  | reraise (msg : List Char)
  | completed
deriving DecidableEq

/-- `main()`'s handlers (lines 731–737): `except KeyboardInterrupt` calls
`sys.exit(130)`; `except Exception` prints and re-raises; a `SystemExit`
from inside the body passes through both handlers and ends the process with
its code; a normal return completes. -/
def mainRun (ready : Bool) (sysName : List Char) (gitOk : Bool)
    (rest : PyRun Bool) (afterRest : Bool → PyRun Unit) : ExitBehavior :=
  match mainBody ready sysName gitOk rest afterRest with
  | .keyboardInterrupt => .exitCode 130
  | .error m => .reraise m
  | .systemExit c => .exitCode c
  | .ok _ => .completed

/- ── Shared lemmas about the ensure sites ── -/

theorem infix_of_right {l a b : List Char} (h : l <:+: b) : l <:+: a ++ b :=
  h.trans (List.suffix_append a b).isInfix

theorem infix_of_left {l a b : List Char} (h : l <:+: a) : l <:+: a ++ b :=
  h.trans (List.prefix_append a b).isInfix

theorem pyLower_append (a b : List Char) : pyLower (a ++ b) = pyLower a ++ pyLower b := by
  simp [pyLower]

theorem ssh_skip {c : List Char} (h : "github.com".data <:+: pyLower c) :
    sshConfigEnsure (some c) = c := by
  simp [sshConfigEnsure, h]

theorem ssh_append {c : List Char} (h : ¬ "github.com".data <:+: pyLower c) :
    sshConfigEnsure (some c) = c ++ githubBlock := by
  simp [sshConfigEnsure, h]

theorem gpg_skip {pin c : List Char} (h : "pinentry-program".data <:+: c) :
    gpgAgentEnsure pin (some c) = c := by
  simp [gpgAgentEnsure, h]

theorem gpg_append {pin c : List Char} (h : ¬ "pinentry-program".data <:+: c) :
    gpgAgentEnsure pin (some c) = c ++ gpgAppendBlock pin := by
  simp [gpgAgentEnsure, h]

theorem rc_skip {c : List Char} (h : "GPG_TTY".data <:+: c) :
    rcGpgTtyEnsure (some c) = c := by
  simp [rcGpgTtyEnsure, h]

theorem rc_append {c : List Char} (h : ¬ "GPG_TTY".data <:+: c) :
    rcGpgTtyEnsure (some c) = c ++ gpgTtyBlock := by
  simp [rcGpgTtyEnsure, h]

theorem ssh_marker_in_block : "github.com".data <:+: pyLower githubBlock := by decide

theorem ssh_marker_in_create : "github.com".data <:+: pyLower (pyLstrip githubBlock) := by
  decide

theorem gpg_marker_in_line (pin : List Char) :
    "pinentry-program".data <:+: pinentryLine pin := by
  refine ⟨[], ' ' :: pin, ?_⟩
  show [] ++ "pinentry-program".data ++ (' ' :: pin) = "pinentry-program ".data ++ pin
  rw [List.nil_append,
    show "pinentry-program ".data = "pinentry-program".data ++ [' '] from by decide]
  simp

theorem gpg_marker_in_append (pin : List Char) :
    "pinentry-program".data <:+: gpgAppendBlock pin := by
  have h : "pinentry-program".data <:+: ['\n'] ++ (pinentryLine pin ++ ['\n']) :=
    infix_of_right (infix_of_left (gpg_marker_in_line pin))
  exact h

theorem gpg_marker_in_create (pin : List Char) :
    "pinentry-program".data <:+: gpgCreateContent pin :=
  infix_of_left (gpg_marker_in_line pin)

theorem tty_marker_in_block : "GPG_TTY".data <:+: gpgTtyBlock := by decide

theorem tty_marker_in_create : "GPG_TTY".data <:+: gpgTtyCreate := by decide

/- ── Claim theorems: the ensure family ── -/

/-- C1: for every target file state and every (marker, block) pair the wizard
uses — the github.com block in `~/.ssh/config`, the pinentry-program line in
`gpg-agent.conf` (any pinentry path), and the GPG_TTY export in the shell rc
file — applying the ensure mutation twice in succession with identical
arguments yields byte-identical file content after the second application as
after the first. -/
theorem ensure_idempotent :
    (∀ s : Option (List Char),
        sshConfigEnsure (some (sshConfigEnsure s)) = sshConfigEnsure s)
  ∧ (∀ (pin : List Char) (s : Option (List Char)),
        gpgAgentEnsure pin (some (gpgAgentEnsure pin s)) = gpgAgentEnsure pin s)
  ∧ (∀ s : Option (List Char),
        rcGpgTtyEnsure (some (rcGpgTtyEnsure s)) = rcGpgTtyEnsure s) := by
  refine ⟨?_, ?_, ?_⟩
  · intro s
    match s with
    | none => exact ssh_skip ssh_marker_in_create
    | some c =>
        by_cases h : "github.com".data <:+: pyLower c
        · rw [ssh_skip h]; exact ssh_skip h
        · rw [ssh_append h]
          exact ssh_skip (by rw [pyLower_append]; exact infix_of_right ssh_marker_in_block)
  · intro pin s
    match s with
    | none => exact gpg_skip (gpg_marker_in_create pin)
    | some c =>
        by_cases h : "pinentry-program".data <:+: c
        · rw [gpg_skip h]; exact gpg_skip h
        · rw [gpg_append h]
          exact gpg_skip (infix_of_right (gpg_marker_in_append pin))
  · intro s
    match s with
    | none => exact rc_skip tty_marker_in_create
    | some c =>
        by_cases h : "GPG_TTY".data <:+: c
        · rw [rc_skip h]; exact rc_skip h
        · rw [rc_append h]
          exact rc_skip (infix_of_right tty_marker_in_block)

/-- C3 counterexample: on an existing but empty `gpg-agent.conf`, the ensure
step with pinentry path `X` does not produce `"pinentry-program X\n"` — the
append branch writes a leading separator newline first. -/
theorem gpg_empty_file_cex :
    gpgAgentEnsure "X".data (some []) ≠ "pinentry-program X\n".data := by decide

/-- C3 amended: on an existing but empty `gpg-agent.conf`, ensure with marker
`"pinentry-program"` yields content `"\npinentry-program X\n"` — the appended
block `"\n" + pinentry_line + "\n"` carries a leading newline, so the result
is the create-content preceded by one newline, not the create-content
itself. -/
theorem gpg_empty_file_appends :
    gpgAgentEnsure "X".data (some []) = "\npinentry-program X\n".data
  ∧ ∀ pin : List Char, gpgAgentEnsure pin (some []) = '\n' :: gpgCreateContent pin := by
  constructor
  · decide
  · intro pin
    rw [gpg_append (by decide)]
    simp [gpgAppendBlock, gpgCreateContent]

/-- C4: for every existing file content `c` that does not contain the marker,
each ensure site appends its block, so the resulting content is exactly `c`
followed by the block — in particular it starts with exactly `c`. -/
theorem ensure_append_preserves :
    (∀ c : List Char, ¬ "github.com".data <:+: pyLower c →
        sshConfigEnsure (some c) = c ++ githubBlock ∧ c <+: sshConfigEnsure (some c))
  ∧ (∀ pin c : List Char, ¬ "pinentry-program".data <:+: c →
        gpgAgentEnsure pin (some c) = c ++ gpgAppendBlock pin
          ∧ c <+: gpgAgentEnsure pin (some c))
  ∧ (∀ c : List Char, ¬ "GPG_TTY".data <:+: c →
        rcGpgTtyEnsure (some c) = c ++ gpgTtyBlock ∧ c <+: rcGpgTtyEnsure (some c)) := by
  refine ⟨?_, ?_, ?_⟩
  · intro c h
    rw [ssh_append h]
    exact ⟨rfl, List.prefix_append c githubBlock⟩
  · intro pin c h
    rw [gpg_append h]
    exact ⟨rfl, List.prefix_append c (gpgAppendBlock pin)⟩
  · intro c h
    rw [rc_append h]
    exact ⟨rfl, List.prefix_append c gpgTtyBlock⟩

/-- C4 witness: an SSH config holding only a gitlab.com host block does not
contain the marker, and ensure appends the github block after it, so the
result holds the gitlab block then the github block, in that order. -/
theorem ensure_append_preserves_witness :
    (¬ "github.com".data <:+: pyLower "Host gitlab.com\n  HostName gitlab.com\n".data)
  ∧ sshConfigEnsure (some "Host gitlab.com\n  HostName gitlab.com\n".data)
      = "Host gitlab.com\n  HostName gitlab.com\n".data ++ githubBlock
  ∧ "Host gitlab.com\n  HostName gitlab.com\n".data
      <+: sshConfigEnsure (some "Host gitlab.com\n  HostName gitlab.com\n".data) :=
  ⟨by decide,
   (ensure_append_preserves.1 "Host gitlab.com\n  HostName gitlab.com\n".data (by decide)).1,
   (ensure_append_preserves.1 "Host gitlab.com\n  HostName gitlab.com\n".data (by decide)).2⟩

/-- C5: whenever the existing content contains the marker anywhere as a plain
substring (lowercased content for the ssh site, raw content for the other
two), the ensure site performs no write: the content is unchanged,
byte for byte. -/
theorem ensure_marker_present_skips :
    (∀ c : List Char, "github.com".data <:+: pyLower c → sshConfigEnsure (some c) = c)
  ∧ (∀ pin c : List Char, "pinentry-program".data <:+: c → gpgAgentEnsure pin (some c) = c)
  ∧ (∀ c : List Char, "GPG_TTY".data <:+: c → rcGpgTtyEnsure (some c) = c) :=
  ⟨fun _ h => ssh_skip h, fun _ _ h => gpg_skip h, fun _ h => rc_skip h⟩

/-- C5 witness: a config whose github.com block names a different key still
contains the marker, so ensure leaves it byte-identical. -/
theorem ensure_marker_present_skips_witness :
    ("github.com".data <:+: pyLower "Host github.com\n  IdentityFile ~/.ssh/old_key\n".data)
  ∧ sshConfigEnsure (some "Host github.com\n  IdentityFile ~/.ssh/old_key\n".data)
      = "Host github.com\n  IdentityFile ~/.ssh/old_key\n".data :=
  ⟨by decide,
   ensure_marker_present_skips.1 "Host github.com\n  IdentityFile ~/.ssh/old_key\n".data
     (by decide)⟩

/-- C10: the ssh site checks `"github.com"` against the lowercased content,
so a file holding only `"GITHUB.COM"` counts as configured and is unchanged;
the pinentry-program and GPG_TTY markers are checked case-sensitively against
the raw content, so files holding only differently-cased variants are not
treated as configured and get the block appended. -/
theorem marker_case_sensitivity :
    sshConfigEnsure (some "GITHUB.COM".data) = "GITHUB.COM".data
  ∧ gpgAgentEnsure "X".data (some "PINENTRY-PROGRAM /opt/x\n".data)
      = "PINENTRY-PROGRAM /opt/x\n".data ++ gpgAppendBlock "X".data
  ∧ rcGpgTtyEnsure (some "export gpg_tty=$(tty)\n".data)
      = "export gpg_tty=$(tty)\n".data ++ gpgTtyBlock := by
  refine ⟨by decide, ?_, ?_⟩
  · exact gpg_append (by decide)
  · exact rc_append (by decide)

/- ── Shared lemmas about the extractor ── -/

theorem all_takeWhile (p : Char → Bool) :
    ∀ l : List Char, (l.takeWhile p).all p = true := by
  intro l
  induction l with
  | nil => rfl
  | cons c t ih =>
      rw [List.takeWhile_cons]
      by_cases h : p c = true
      · simp [h, ih]
      · simp [h]

theorem reSearch_sound :
    ∀ l r : List Char, reSearch l = some r → r.all isHexChar = true ∧ 8 ≤ r.length := by
  intro l
  induction l with
  | nil => intro r h; simp [reSearch] at h
  | cons c rest ih =>
      intro r h
      by_cases hc : c = '/'
      · simp only [reSearch, if_pos hc] at h
        by_cases hlen : 8 ≤ (rest.takeWhile isHexChar).length
        · rw [if_pos hlen] at h
          cases h
          exact ⟨all_takeWhile isHexChar rest, hlen⟩
        · rw [if_neg hlen] at h
          exact ih r h
      · simp only [reSearch, if_neg hc] at h
        exact ih r h

theorem scanLines_sound :
    ∀ (ls : List (List Char)) (r : List Char),
      scanLines ls = some r → r.all isHexChar = true ∧ 8 ≤ r.length := by
  intro ls
  induction ls with
  | nil => intro r h; simp [scanLines] at h
  | cons l t ih =>
      intro r h
      simp only [scanLines] at h
      by_cases hp : secLit.isPrefixOf (pyStrip l) = true
      · rw [if_pos hp] at h
        cases hr : reSearch (pyStrip l) with
        | some r' => rw [hr] at h; cases h; exact reSearch_sound (pyStrip l) r hr
        | none => rw [hr] at h; exact ih r h
      · rw [if_neg hp] at h
        exact ih r h

theorem scanLines_skip (pre rest : List (List Char))
    (h : ∀ l ∈ pre,
      secLit.isPrefixOf (pyStrip l) = false ∨ reSearch (pyStrip l) = none) :
    scanLines (pre ++ rest) = scanLines rest := by
  induction pre with
  | nil => rfl
  | cons l t ih =>
      have hl := h l (List.mem_cons_self l t)
      have hrec := ih fun x hx => h x (List.mem_cons_of_mem l hx)
      rw [List.cons_append]
      simp only [scanLines]
      rcases hl with hp | hr
      · simp [hp, hrec]
      · by_cases hp : secLit.isPrefixOf (pyStrip l) = true
        · simp [hp, hr, hrec]
        · simp [hp, hrec]

theorem scanLines_none (ls : List (List Char))
    (h : ∀ l ∈ ls, secLit.isPrefixOf (pyStrip l) = false) :
    scanLines ls = none := by
  induction ls with
  | nil => rfl
  | cons l t ih =>
      simp only [scanLines]
      simp [h l (List.mem_cons_self l t), ih fun x hx => h x (List.mem_cons_of_mem l hx)]

theorem reSearch_skip :
    ∀ p : List Char, '/' ∉ p → ∀ q, reSearch (p ++ q) = reSearch q := by
  intro p
  induction p with
  | nil => intro _ q; rfl
  | cons c t ih =>
      intro hp q
      have hc : ¬ c = '/' := by
        intro e
        exact hp (by rw [e]; exact List.mem_cons_self '/' t)
      rw [List.cons_append]
      simp only [reSearch, if_neg hc]
      exact ih (fun hm => hp (List.mem_cons_of_mem c hm)) q

theorem reSearch_hit (r rest : List Char)
    (hall : r.all isHexChar = true) (hlen : 8 ≤ r.length)
    (hrest : (rest.take 1).all (fun c => ! isHexChar c) = true) :
    reSearch ('/' :: (r ++ rest)) = some r := by
  have htail : rest.takeWhile isHexChar = [] := by
    cases rest with
    | nil => rfl
    | cons c t =>
        have : isHexChar c = false := by simpa using List.all_eq_true.mp hrest c (by simp)
        simp [List.takeWhile_cons, this]
  have htw : (r ++ rest).takeWhile isHexChar = r := by
    rw [List.takeWhile_append_of_pos (List.all_eq_true.mp hall), htail, List.append_nil]
  simp only [reSearch, if_pos rfl]
  rw [htw]
  simp [hlen]

theorem isPrefixOf_append_self :
    ∀ l t : List Char, l.isPrefixOf (l ++ t) = true := by
  intro l t
  induction l with
  | nil => simp [List.isPrefixOf]
  | cons c cs ih => simp [List.isPrefixOf, ih]

/- ── Claim theorems: the extractor ── -/

/-- C2 counterexample: the line `"sec   ed25519/2BA6DADD4FBW5F14 2025-02-06 [SC]"`
qualifies (it starts with `"sec"`), its token after the slash contains the
non-hex letter `W`, yet the extractor does find a match on it and returns the
truncated hex run `"2BA6DADD4FB"` — the eleven hex characters before the
`W`. -/
theorem extract_truncated_run_cex :
    secLit.isPrefixOf
      (pyStrip "sec   ed25519/2BA6DADD4FBW5F14 2025-02-06 [SC]".data) = true
  ∧ isHexChar 'W' = false
  ∧ extractKeyId "sec   ed25519/2BA6DADD4FBW5F14 2025-02-06 [SC]".data
      = some "2BA6DADD4FB".data := by
  exact ⟨by decide, by decide, by decide⟩

/-- C2 amended: the extractor never returns a value spanning a non-hex
character — any returned identifier consists solely of characters from
`[A-F0-9]` and is at least eight long. (When at least eight hex characters
precede the first non-hex character of a token, the extractor does return
that truncated prefix run, per the counterexample; when fewer than eight do,
the line yields no match and scanning continues. The extractor is a total
function, so it never throws.) -/
theorem extract_result_all_hex (out r : List Char) (h : extractKeyId out = some r) :
    r.all isHexChar = true ∧ 8 ≤ r.length :=
  scanLines_sound (splitLines out) r h

/-- C2 amended, witness: on a well-formed secret-key listing line the
extractor returns a run, and that run is all-hex of length at least eight. -/
theorem extract_result_all_hex_witness :
    extractKeyId "sec   rsa4096/ABCDEF1234567890 2024-01-15 [SC]".data
      = some "ABCDEF1234567890".data
  ∧ "ABCDEF1234567890".data.all isHexChar = true
  ∧ 8 ≤ "ABCDEF1234567890".data.length :=
  ⟨by decide,
   (extract_result_all_hex "sec   rsa4096/ABCDEF1234567890 2024-01-15 [SC]".data
      "ABCDEF1234567890".data (by decide)).1,
   (extract_result_all_hex "sec   rsa4096/ABCDEF1234567890 2024-01-15 [SC]".data
      "ABCDEF1234567890".data (by decide)).2⟩

/-- C6: if the lines before the first qualifying-and-matching line each fail
to qualify or fail to match, and that line (after stripping) is `"sec"`, then
slash-free middle text, then a slash immediately followed by a run of at
least eight `[A-F0-9]` characters ended by a non-hex character (or the line
end), the extractor returns exactly that run. -/
theorem extract_first_qualifying_run
    (out : List Char) (pre : List (List Char)) (line : List Char)
    (post : List (List Char)) (mid r rest : List Char)
    (hsplit : splitLines out = pre ++ line :: post)
    (hpre : ∀ l ∈ pre,
      secLit.isPrefixOf (pyStrip l) = false ∨ reSearch (pyStrip l) = none)
    (hline : pyStrip line = secLit ++ (mid ++ ('/' :: (r ++ rest))))
    (hmid : '/' ∉ mid)
    (hall : r.all isHexChar = true)
    (hlen : 8 ≤ r.length)
    (hrest : (rest.take 1).all (fun c => ! isHexChar c) = true) :
    extractKeyId out = some r := by
  unfold extractKeyId
  rw [hsplit, scanLines_skip pre (line :: post) hpre]
  have hpref : secLit.isPrefixOf (pyStrip line) = true := by
    rw [hline]; exact isPrefixOf_append_self secLit _
  have hre : reSearch (pyStrip line) = some r := by
    rw [hline, reSearch_skip secLit (by decide), reSearch_skip mid hmid]
    exact reSearch_hit r rest hall hlen hrest
  simp only [scanLines]
  simp [hpref, hre]

/-- C6 witness: the spec's sample listing line yields exactly the sixteen-hex
key identifier `2BA6DADD4FB05F14`. -/
theorem extract_first_qualifying_run_witness :
    pyStrip "sec   ed25519/2BA6DADD4FB05F14 2025-02-06 ...".data
      = secLit ++ ("   ed25519".data ++ ('/' :: ("2BA6DADD4FB05F14".data ++ " 2025-02-06 ...".data)))
  ∧ extractKeyId "sec   ed25519/2BA6DADD4FB05F14 2025-02-06 ...".data
      = some "2BA6DADD4FB05F14".data :=
  ⟨by decide,
   extract_first_qualifying_run
     "sec   ed25519/2BA6DADD4FB05F14 2025-02-06 ...".data
     [] "sec   ed25519/2BA6DADD4FB05F14 2025-02-06 ...".data []
     "   ed25519".data "2BA6DADD4FB05F14".data " 2025-02-06 ...".data
     (by decide) (by simp) (by decide) (by decide) (by decide) (by decide) (by decide)⟩

/-- C7: on empty tool output, and on every output none of whose lines starts
(after stripping) with the record prefix `"sec"`, the extractor returns
`none`; it is a total function, so it never throws. -/
theorem extract_absent_on_no_record :
    extractKeyId [] = none
  ∧ ∀ out : List Char,
      (splitLines out).all (fun l => ! secLit.isPrefixOf (pyStrip l)) = true →
      extractKeyId out = none := by
  constructor
  · decide
  · intro out h
    unfold extractKeyId
    exact scanLines_none (splitLines out) fun l hl => by
      simpa using List.all_eq_true.mp h l hl

/-- C7 witness: a listing with only `uid` and `ssb` lines (the `ssb` line even
holds a slash-hex run) has no `sec` record line, and the extractor returns
`none` on it. -/
theorem extract_absent_on_no_record_witness :
    (splitLines "uid   [ultimate] Test User <t@t.com>\nssb   cv25519/48AD7A000000A8C0 2025-02-06 [E]".data).all
        (fun l => ! secLit.isPrefixOf (pyStrip l)) = true
  ∧ extractKeyId "uid   [ultimate] Test User <t@t.com>\nssb   cv25519/48AD7A000000A8C0 2025-02-06 [E]".data
      = none :=
  ⟨by decide,
   extract_absent_on_no_record.2
     "uid   [ultimate] Test User <t@t.com>\nssb   cv25519/48AD7A000000A8C0 2025-02-06 [E]".data
     (by decide)⟩

/- ── Claim theorems: the shell gateway ── -/

/-- An operating system on which launching any subprocess raises. -/
def oracleRaises : OSModel := fun _ => .error ⟨"OSError: fork failure".data⟩

/-- An operating system on which every command completes with exit code 0. -/
def oracleZero : OSModel := fun _ => .ok ⟨0, "ok".data, []⟩

/-- C8 counterexample: `cmd_exists` is built on `sh_ok`, which has no
exception handler, so on an operating system where the process launch raises,
the exception propagates to the caller instead of a boolean coming back. -/
theorem gateway_launch_exn_cex :
    cmdExistsCall oracleRaises "git".data
      = Except.error ⟨"OSError: fork failure".data⟩ := rfl

/-- C8 amended: `sh` never lets any failure propagate — for every operating
system behaviour and every command it returns normally with a text result
(`Except.ok`) — and `cmd_exists` returns the boolean `returncode == 0`
whenever the underlying launch returns normally; but a launch exception
inside `sh_ok`/`cmd_exists` propagates uncaught, per the counterexample. -/
theorem gateway_sh_never_throws :
    (∀ (os : OSModel) (cmd : List Char), ∃ s, shCall os cmd = Except.ok s)
  ∧ (∀ (os : OSModel) (name : List Char) (r : ExecResult),
        os ("which ".data ++ name) = Except.ok r →
        cmdExistsCall os name = Except.ok (decide (r.returncode = 0))) := by
  constructor
  · intro os cmd
    unfold shCall
    cases h : os cmd with
    | ok r => exact ⟨pyStrip r.stdout, rfl⟩
    | error e => exact ⟨[], rfl⟩
  · intro os name r h
    unfold cmdExistsCall shOkCall
    rw [h]

/-- C8 amended, witness: `sh` returns a text result even on the raising
operating system, and `cmd_exists` answers `true` on an operating system that
resolves the probe with exit code 0. -/
theorem gateway_sh_never_throws_witness :
    (∃ s, shCall oracleRaises "git --version".data = Except.ok s)
  ∧ cmdExistsCall oracleZero "git".data = Except.ok true :=
  ⟨gateway_sh_never_throws.1 oracleRaises "git --version".data,
   by
     have h := gateway_sh_never_throws.2 oracleZero "git".data ⟨0, "ok".data, []⟩ rfl
     simpa using h⟩

/- ── Claim theorems: wizard flow exit codes ── -/

/-- A preflight remainder that reports GPG available. -/
def restOk : PyRun Bool := PyRun.ok true

/-- A remainder of `main`'s body that returns normally. -/
def afterOk : Bool → PyRun Unit := fun _ => PyRun.ok ()

/-- A remainder of `main`'s body interrupted by the user. -/
def afterInterrupt : Bool → PyRun Unit := fun _ => PyRun.keyboardInterrupt

/-- A remainder of `main`'s body that raises an ordinary exception. -/
def afterBoom : Bool → PyRun Unit := fun _ => PyRun.error "boom".data

/-- C9: the no-argument entry point exits 0 when the user declines at the
welcome prompt; exits 1 when the platform is not Darwin or git is missing;
exits 130 when the body ends in a `KeyboardInterrupt`; and re-raises (after
printing) when the body ends in any other exception. -/
theorem wizard_exit_codes :
    (∀ (sysName : List Char) (gitOk : Bool) (rest : PyRun Bool)
        (after : Bool → PyRun Unit),
        mainRun false sysName gitOk rest after = ExitBehavior.exitCode 0)
  ∧ (∀ (sysName : List Char) (gitOk : Bool) (rest : PyRun Bool)
        (after : Bool → PyRun Unit), sysName ≠ "Darwin".data →
        mainRun true sysName gitOk rest after = ExitBehavior.exitCode 1)
  ∧ (∀ (rest : PyRun Bool) (after : Bool → PyRun Unit),
        mainRun true "Darwin".data false rest after = ExitBehavior.exitCode 1)
  ∧ (∀ (ready : Bool) (sysName : List Char) (gitOk : Bool) (rest : PyRun Bool)
        (after : Bool → PyRun Unit),
        mainBody ready sysName gitOk rest after = PyRun.keyboardInterrupt →
        mainRun ready sysName gitOk rest after = ExitBehavior.exitCode 130)
  ∧ (∀ (ready : Bool) (sysName : List Char) (gitOk : Bool) (rest : PyRun Bool)
        (after : Bool → PyRun Unit) (m : List Char),
        mainBody ready sysName gitOk rest after = PyRun.error m →
        mainRun ready sysName gitOk rest after = ExitBehavior.reraise m) := by
  refine ⟨?_, ?_, ?_, ?_, ?_⟩
  · intro s g rest after; rfl
  · intro s g rest after h
    unfold mainRun mainBody welcomeRun preflightRun
    rw [if_pos rfl]
    simp [pyBind, if_neg h]
  · intro rest after
    unfold mainRun mainBody welcomeRun preflightRun
    rw [if_pos rfl]
    simp [pyBind]
  · intro ready s g rest after h
    unfold mainRun
    rw [h]
  · intro ready s g rest after m h
    unfold mainRun
    rw [h]

/-- C9 witness: the five exit behaviours at concrete scenarios — declining at
welcome, running on Linux, running without git, an interrupt during the later
phases, and an internal error during the later phases. -/
theorem wizard_exit_codes_witness :
    mainRun false "Darwin".data true restOk afterOk = ExitBehavior.exitCode 0
  ∧ ("Linux".data ≠ "Darwin".data
      ∧ mainRun true "Linux".data true restOk afterOk = ExitBehavior.exitCode 1)
  ∧ mainRun true "Darwin".data false restOk afterOk = ExitBehavior.exitCode 1
  ∧ (mainBody true "Darwin".data true restOk afterInterrupt = PyRun.keyboardInterrupt
      ∧ mainRun true "Darwin".data true restOk afterInterrupt
          = ExitBehavior.exitCode 130)
  ∧ (mainBody true "Darwin".data true restOk afterBoom = PyRun.error "boom".data
      ∧ mainRun true "Darwin".data true restOk afterBoom
          = ExitBehavior.reraise "boom".data) :=
  ⟨wizard_exit_codes.1 "Darwin".data true restOk afterOk,
   ⟨by decide, wizard_exit_codes.2.1 "Linux".data true restOk afterOk (by decide)⟩,
   wizard_exit_codes.2.2.1 restOk afterOk,
   ⟨rfl, wizard_exit_codes.2.2.2.1 true "Darwin".data true restOk afterInterrupt rfl⟩,
   ⟨rfl, wizard_exit_codes.2.2.2.2 true "Darwin".data true restOk afterBoom
      "boom".data rfl⟩⟩

end GitSetupWizard
